import Mathlib

/-!
Shallow embedding of the Solana lending-pool program
(`contracts/solana/programs/lending_pool/src/lib.rs`).

Modelling conventions:
* `u64` values are `Nat`s kept below `2^64` by the same `checked_*`
  operations the source uses; a failing `checked_*().unwrap()` is a Rust
  panic, which aborts the whole Solana transaction.  Such aborts are
  modelled by the outcome `TxErr.overflowAbort`.
* `i64` timestamps are `Int`.
* `Pubkey` values are modelled as `Nat` (with `Pubkey::default()` = 0).
* Errors returned with `require!`/`return Err(..)` are `TxErr.e c` for the
  source's `ErrorCode` `c`.  An Anchor account-constraint failure is
  `TxErr.constraintViolation`; a failing SPL token transfer (an external
  collaborator) is `TxErr.transferFail`, with the success of each transfer
  call site supplied by the environment.
* Outcomes carry the raw account state as mutated up to the failure point,
  so that "an error mutates nothing" is a real property of the code's
  statement order, not of the embedding.
* `HashMap<u32,bool>` is an association list with `unwrap_or(&false)`
  lookup.
* Borsh strings are modelled as raw byte lists.  Borsh's UTF-8 validity
  check is not modelled: in this program a string that fails the UTF-8
  check and a string that matches no action arm both end in the same
  `ErrorCode::CrossChainFailed` with no prior mutation, so the two models
  are observationally equal.
* `10u64.pow(decimals)` is modelled as `10 ^ decimals` over `Nat`; the
  models differ only for `decimals ≥ 20`, which no supported token has.
-/

deriving instance DecidableEq for Except

/-! ## Constants (lib.rs lines 57-62) -/

def PRECISION : Nat := 1000000000000000000

def MIN_HEALTH_FACTOR : Nat := PRECISION

def LIQUIDATION_THRESHOLD : Nat := 950000000000000000

def LIQUIDATION_BONUS : Nat := 50000000000000000

def MAX_LTV : Nat := 750000000000000000

def U64MAX : Nat := 18446744073709551615

/-! ## Error codes (lib.rs lines 23-55) -/

inductive ErrorCode
  | InsufficientCollateral
  | AssetNotSupported
  | HealthFactorTooLow
  | InvalidAmount
  | RateLimited
  | NotAuthorized
  | CrossChainFailed
  | InvalidPriceData
  | LiquidationNotAllowed
  | PositionNotFound
  | ChainNotSupported
  | PositionHealthy
  | MathOverflow
  | InsufficientFee
  | LayerZeroCpiFailed
deriving DecidableEq, Repr

/-- A transaction-aborting outcome: a returned `ErrorCode`, a Rust panic
from a failed `checked_*().unwrap()` (`overflowAbort`), an Anchor account
constraint failure, or a failed SPL token transfer. -/
inductive TxErr
  | e (c : ErrorCode)
  | overflowAbort
  | constraintViolation
  | transferFail
deriving DecidableEq, Repr

/-- Result of running one instruction handler: either the updated account
state, or an abort carrying the state as mutated up to the failure
point (the Solana runtime then rolls the whole transaction back). -/
inductive TxOut (σ : Type)
  | ok (s : σ)
  | err (er : TxErr) (s : σ)
deriving DecidableEq, Repr

/-! ## Checked u64 arithmetic -/

def checkedAdd (a b : Nat) : Option Nat :=
  if a + b ≤ U64MAX then some (a + b) else none

def checkedSub (a b : Nat) : Option Nat :=
  if b ≤ a then some (a - b) else none

def checkedMul (a b : Nat) : Option Nat :=
  if a * b ≤ U64MAX then some (a * b) else none

def checkedDiv (a b : Nat) : Option Nat :=
  if b = 0 then none else some (a / b)

/-! ## Account state (lib.rs lines 840-946) -/

/-- `LendingPool` account (fields the instruction handlers read/write). -/
structure LendingPool where
  admin : Nat
  is_paused : Bool
  total_assets : Nat
  supported_chains : List (Nat × Bool)
  message_nonce : Nat
deriving DecidableEq, Repr

/-- `pool.supported_chains.get(&id).unwrap_or(&false)`. -/
def chainSupported (chains : List (Nat × Bool)) (id : Nat) : Bool :=
  match chains.lookup id with
  | some b => b
  | none => false

/-- `AssetInfo` account. -/
structure AssetInfo where
  mint : Nat
  price_feed : Nat
  ltv : Nat
  liquidation_threshold : Nat
  is_active : Bool
  can_be_collateral : Bool
  can_be_borrowed : Bool
  total_deposits : Nat
  total_borrows : Nat
  decimals : Nat
deriving DecidableEq, Repr

/-- `UserPosition` account. -/
structure UserPosition where
  user : Nat
  collateral_balance : Nat
  borrow_balance : Nat
  total_collateral_value_usd : Nat
  total_borrow_value_usd : Nat
  health_factor : Nat
  last_action_timestamp : Int
deriving DecidableEq, Repr

/-! ## Events (lib.rs lines 1113-1185) -/

inductive Event
  | assetAdded (mint ltv threshold : Nat)
  | depositEv (user mint amount chainSelector : Nat)
  | borrowEv (user mint amount destChain healthFactor : Nat)
  | repayEv (user mint amount : Nat)
  | withdrawEv (user mint amount : Nat)
  | liquidationEv (liquidator borrower debtAmount collateralSeized healthFactor : Nat)
  | messageReceived (user : Nat) (action : List Nat) (amount sourceChain : Nat)
  | messageSent (guid : List Nat) (user : Nat) (action : List Nat) (destChain nonce : Nat)
  | protocolPaused (admin : Nat)
  | protocolUnpaused (admin : Nat)
deriving DecidableEq, Repr

/-- The accounts one instruction can touch: the pool singleton, the asset
registry entry and the user position passed in its context, plus the
events the instruction emits. -/
structure ProgState where
  pool : LendingPool
  asset : AssetInfo
  pos : UserPosition
  events : List Event
deriving DecidableEq, Repr

/-- External inputs of one instruction execution: the clock and the
success of the n-th SPL token transfer the instruction performs. -/
structure Env where
  now : Int
  transferOk : Nat → Bool

/-! ## Helper functions (lib.rs lines 1187-1244) -/

/-- `get_asset_price`: placeholder oracle, always `Ok(100_000_000_000_000_000)`. -/
def get_asset_price (_priceFeed : Nat) : Except TxErr Nat :=
  .ok 100000000000000000

/-- `calculate_usd_value(amount, price, decimals)`:
`amount.checked_mul(price).unwrap().checked_div(10^decimals).unwrap()`. -/
def calculate_usd_value (amount price decimals : Nat) : Except TxErr Nat :=
  match checkedMul amount price with
  | none => .error .overflowAbort
  | some m =>
    match checkedDiv m (10 ^ decimals) with
    | none => .error .overflowAbort
    | some v => .ok v

/-- `calculate_health_factor(collateral_usd, borrow_usd, threshold)`:
`u64::MAX` when `borrow_usd == 0`, otherwise
`collateral_usd.checked_mul(threshold).unwrap().checked_div(borrow_usd).unwrap()`. -/
def calculate_health_factor (c b t : Nat) : Except TxErr Nat :=
  if b = 0 then .ok U64MAX
  else
    match checkedMul c t with
    | none => .error .overflowAbort
    | some m =>
      match checkedDiv m b with
      | none => .error .overflowAbort
      | some hf => .ok hf

/-- `calculate_liquidation_amount(debt_amount, debt_price, collateral_price, bonus)`. -/
def calculate_liquidation_amount (debtAmount debtPrice collateralPrice bonus : Nat) :
    Except TxErr Nat :=
  match checkedMul debtAmount debtPrice with
  | none => .error .overflowAbort
  | some debtValue =>
    match checkedMul debtValue bonus with
    | none => .error .overflowAbort
    | some bp =>
      match checkedDiv bp PRECISION with
      | none => .error .overflowAbort
      | some bonusValue =>
        match checkedAdd debtValue bonusValue with
        | none => .error .overflowAbort
        | some total =>
          match checkedDiv total collateralPrice with
          | none => .error .overflowAbort
          | some seize => .ok seize

/-- `update_health_factor`: recompute `health_factor` from the stored USD
totals against the global `LIQUIDATION_THRESHOLD`. -/
def update_health_factor (pos : UserPosition) : Except TxErr UserPosition :=
  match calculate_health_factor pos.total_collateral_value_usd
      pos.total_borrow_value_usd LIQUIDATION_THRESHOLD with
  | .error er => .error er
  | .ok hf => .ok { pos with health_factor := hf }

/-! ## CrossChainMessage and its Borsh wire format (lib.rs lines 106-117) -/

/-- `CrossChainMessage`.  `action` holds the raw bytes of the Borsh
string; `user`, `asset` hold a `Pubkey`'s 32 bytes read little-endian as
one `Nat`; `receiver` is the raw 32-byte array. -/
structure CrossChainMessage where
  action : List Nat
  user : Nat
  amount : Nat
  asset : Nat
  timestamp : Int
  source_chain : Nat
  dest_chain : Nat
  receiver : List Nat
  nonce : Nat
deriving DecidableEq, Repr

/-- The bytes of the action strings the program matches on. -/
def strBorrow : List Nat := [98, 111, 114, 114, 111, 119]

def strRepay : List Nat := [114, 101, 112, 97, 121]

def strLiquidate : List Nat := [108, 105, 113, 117, 105, 100, 97, 116, 101]

def strSend : List Nat := [115, 101, 110, 100]

/-- `w` little-endian bytes of `n`. -/
def leBytes (n w : Nat) : List Nat :=
  (List.range w).map fun i => n / 256 ^ i % 256

/-- Value of a little-endian byte list. -/
def leVal (bytes : List Nat) : Nat :=
  bytes.foldr (fun b acc => b + 256 * acc) 0

/-- The `i64` denoted by an unsigned 64-bit value (two's complement). -/
def i64OfNat (n : Nat) : Int :=
  if n < 2 ^ 63 then (n : Int) else (n : Int) - 2 ^ 64

/-- The unsigned 64-bit representation of an `i64`. -/
def i64ToNat (x : Int) : Nat :=
  (x % (2 ^ 64 : Int)).toNat

/-- Borsh serialization of a `CrossChainMessage`, in field declaration
order (`borsh::to_vec`). -/
def borshEncodeMessage (m : CrossChainMessage) : List Nat :=
  leBytes m.action.length 4 ++ m.action ++ leBytes m.user 32 ++
    leBytes m.amount 8 ++ leBytes m.asset 32 ++ leBytes (i64ToNat m.timestamp) 8 ++
    leBytes m.source_chain 4 ++ leBytes m.dest_chain 4 ++ m.receiver ++
    leBytes m.nonce 8

/-- Read `n` bytes from the front of a byte list. -/
def readBytesN (n : Nat) (bs : List Nat) : Option (List Nat × List Nat) :=
  if n ≤ bs.length then some (bs.take n, bs.drop n) else none

/-- Borsh deserialization of a `CrossChainMessage`
(`CrossChainMessage::try_from_slice`): reads the fields in declaration
order and requires every input byte to be consumed. -/
def decodeMessage (bs : List Nat) : Option CrossChainMessage :=
  match readBytesN 4 bs with
  | none => none
  | some (lenB, r1) =>
    match readBytesN (leVal lenB) r1 with
    | none => none
    | some (act, r2) =>
      match readBytesN 32 r2 with
      | none => none
      | some (userB, r3) =>
        match readBytesN 8 r3 with
        | none => none
        | some (amtB, r4) =>
          match readBytesN 32 r4 with
          | none => none
          | some (assetB, r5) =>
            match readBytesN 8 r5 with
            | none => none
            | some (tsB, r6) =>
              match readBytesN 4 r6 with
              | none => none
              | some (srcB, r7) =>
                match readBytesN 4 r7 with
                | none => none
                | some (dstB, r8) =>
                  match readBytesN 32 r8 with
                  | none => none
                  | some (recvB, r9) =>
                    match readBytesN 8 r9 with
                    | none => none
                    | some (nonceB, r10) =>
                      if r10 = [] then
                        some { action := act, user := leVal userB,
                               amount := leVal amtB, asset := leVal assetB,
                               timestamp := i64OfNat (leVal tsB),
                               source_chain := leVal srcB,
                               dest_chain := leVal dstB, receiver := recvB,
                               nonce := leVal nonceB }
                      else none

/-! ## Instruction handlers -/

/-- `deposit` (lib.rs lines 219-270).  The SPL token transfer from the
user to the pool is the instruction's transfer call site 0. -/
def deposit (amount userKey mintKey : Nat) (env : Env) (s : ProgState) :
    TxOut ProgState :=
  if amount = 0 then .err (.e .InvalidAmount) s
  else if s.pool.is_paused then .err (.e .NotAuthorized) s
  else if ¬ s.asset.is_active then .err (.e .AssetNotSupported) s
  else if ¬ s.asset.can_be_collateral then .err (.e .AssetNotSupported) s
  else if s.pos.last_action_timestamp + 900 > env.now then .err (.e .RateLimited) s
  else if ¬ env.transferOk 0 then .err .transferFail s
  else
    let pos1 := if s.pos.user = 0 then { s.pos with user := userKey } else s.pos
    match checkedAdd pos1.collateral_balance amount with
    | none => .err .overflowAbort { s with pos := pos1 }
    | some cb =>
      let pos2 := { pos1 with collateral_balance := cb,
                              last_action_timestamp := env.now }
      match checkedAdd s.asset.total_deposits amount with
      | none => .err .overflowAbort { s with pos := pos2 }
      | some td =>
        let asset2 := { s.asset with total_deposits := td }
        match update_health_factor pos2 with
        | .error er => .err er { s with pos := pos2, asset := asset2 }
        | .ok pos3 =>
          .ok { s with
                  pos := pos3
                  asset := asset2
                  events := s.events ++ [.depositEv userKey mintKey amount 0] }

/-- The `CrossChainMessage` that `borrow_cross_chain` constructs
(lib.rs lines 330-340): the Solana chain id 40168 as source and the
pool's current (pre-increment) `message_nonce`. -/
def borrowMessage (amount destChainId : Nat) (receiver : List Nat)
    (userKey mintKey : Nat) (env : Env) (s : ProgState) : CrossChainMessage :=
  { action := strBorrow, user := userKey, amount := amount, asset := mintKey,
    timestamp := env.now, source_chain := 40168, dest_chain := destChainId,
    receiver := receiver, nonce := s.pool.message_nonce }

/-- `borrow_cross_chain` (lib.rs lines 273-395).  The LayerZero send is a
logged simulation in the source, so the built payload is dead data. -/
def borrow_cross_chain (amount destChainId : Nat) (receiver : List Nat)
    (userKey mintKey : Nat) (env : Env) (s : ProgState) : TxOut ProgState :=
  if amount = 0 then .err (.e .InvalidAmount) s
  else if s.pool.is_paused then .err (.e .NotAuthorized) s
  else if ¬ s.asset.is_active then .err (.e .AssetNotSupported) s
  else if ¬ s.asset.can_be_borrowed then .err (.e .AssetNotSupported) s
  else if ¬ chainSupported s.pool.supported_chains destChainId then
    .err (.e .ChainNotSupported) s
  else if s.pos.last_action_timestamp + 900 > env.now then .err (.e .RateLimited) s
  else
    match get_asset_price s.asset.price_feed with
    | .error er => .err er s
    | .ok collateralPrice =>
    match get_asset_price s.asset.price_feed with
    | .error er => .err er s
    | .ok borrowPrice =>
    match calculate_usd_value s.pos.collateral_balance collateralPrice s.asset.decimals with
    | .error er => .err er s
    | .ok collateralValue =>
    match calculate_usd_value amount borrowPrice s.asset.decimals with
    | .error er => .err er s
    | .ok borrowValue =>
    match checkedAdd s.pos.total_borrow_value_usd borrowValue with
    | none => .err (.e .MathOverflow) s
    | some newTotalBorrow =>
    match calculate_health_factor collateralValue newTotalBorrow LIQUIDATION_THRESHOLD with
    | .error er => .err er s
    | .ok healthFactor =>
    if healthFactor < MIN_HEALTH_FACTOR then .err (.e .HealthFactorTooLow) s
    else
      let message := borrowMessage amount destChainId receiver userKey mintKey env s
      let _payload := borshEncodeMessage message
      match checkedAdd s.pos.borrow_balance amount with
      | none => .err .overflowAbort s
      | some bb =>
        let pos2 := { s.pos with borrow_balance := bb,
                                 total_borrow_value_usd := newTotalBorrow,
                                 health_factor := healthFactor,
                                 last_action_timestamp := env.now }
        match checkedAdd s.asset.total_borrows amount with
        | none => .err .overflowAbort { s with pos := pos2 }
        | some tb =>
          let asset2 := { s.asset with total_borrows := tb }
          match checkedAdd s.pool.message_nonce 1 with
          | none => .err .overflowAbort { s with pos := pos2, asset := asset2 }
          | some n2 =>
            let pool2 := { s.pool with message_nonce := n2 }
            .ok { pool := pool2, asset := asset2, pos := pos2,
                  events := s.events ++
                    [.borrowEv userKey mintKey amount destChainId healthFactor,
                     .messageSent (List.replicate 32 0) userKey strBorrow
                       destChainId (pool2.message_nonce - 1)] }

/-- `repay` (lib.rs lines 589-635).  Transfer call site 0 moves the repaid
tokens from the user to the pool. -/
def repay (repayAmount userKey mintKey : Nat) (env : Env) (s : ProgState) :
    TxOut ProgState :=
  if repayAmount = 0 then .err (.e .InvalidAmount) s
  else if s.pool.is_paused then .err (.e .NotAuthorized) s
  else if s.pos.user = 0 then .err (.e .PositionNotFound) s
  else if s.pos.borrow_balance < repayAmount then .err (.e .InvalidAmount) s
  else if s.pos.last_action_timestamp + 900 > env.now then .err (.e .RateLimited) s
  else if ¬ env.transferOk 0 then .err .transferFail s
  else
    match checkedSub s.pos.borrow_balance repayAmount with
    | none => .err .overflowAbort s
    | some bb =>
      let pos2 := { s.pos with borrow_balance := bb,
                               last_action_timestamp := env.now }
      match checkedSub s.asset.total_borrows repayAmount with
      | none => .err .overflowAbort { s with pos := pos2 }
      | some tb =>
        let asset2 := { s.asset with total_borrows := tb }
        match update_health_factor pos2 with
        | .error er => .err er { s with pos := pos2, asset := asset2 }
        | .ok pos3 =>
          .ok { s with
                  pos := pos3
                  asset := asset2
                  events := s.events ++ [.repayEv userKey mintKey repayAmount] }

/-- `withdraw` (lib.rs lines 638-694).  Reads the price from the first
remaining account and the decimals from the `Mint` account; transfer call
site 0 moves the collateral from the pool back to the user.  The source
has no rate-limit check and never touches `last_action_timestamp` here. -/
def withdraw (amount mintDecimals userKey mintKey : Nat) (env : Env)
    (s : ProgState) : TxOut ProgState :=
  if amount = 0 then .err (.e .InvalidAmount) s
  else if s.pool.is_paused then .err (.e .NotAuthorized) s
  else if s.pos.collateral_balance < amount then .err (.e .InsufficientCollateral) s
  else
    match get_asset_price 0 with
    | .error er => .err er s
    | .ok price =>
    match calculate_usd_value amount price mintDecimals with
    | .error er => .err er s
    | .ok withdrawValueUsd =>
    match checkedSub s.pos.total_collateral_value_usd withdrawValueUsd with
    | none => .err .overflowAbort s
    | some newCollateralValue =>
    match calculate_health_factor newCollateralValue s.pos.total_borrow_value_usd
        s.asset.liquidation_threshold with
    | .error er => .err er s
    | .ok newHealthFactor =>
    if newHealthFactor < MIN_HEALTH_FACTOR then .err (.e .HealthFactorTooLow) s
    else if ¬ env.transferOk 0 then .err .transferFail s
    else
      match checkedSub s.pos.collateral_balance amount with
      | none => .err .overflowAbort s
      | some cb =>
        let pos2 := { s.pos with collateral_balance := cb,
                                 total_collateral_value_usd := newCollateralValue,
                                 health_factor := newHealthFactor }
        match checkedSub s.asset.total_deposits amount with
        | none => .err .overflowAbort { s with pos := pos2 }
        | some td =>
          .ok { s with
                  pos := pos2
                  asset := { s.asset with total_deposits := td }
                  events := s.events ++ [.withdrawEv userKey mintKey amount] }

/-- `liquidate` (lib.rs lines 697-772).  No pause check, no rate-limit
check, no `last_action_timestamp` update; eligibility is
`health_factor < LIQUIDATION_THRESHOLD` over the stored USD totals.
Transfer call site 0 moves the debt from the liquidator to the pool,
call site 1 the seized collateral from the pool to the liquidator. -/
def liquidate (debtAmount liquidatorKey borrowerKey : Nat) (env : Env)
    (s : ProgState) : TxOut ProgState :=
  if debtAmount = 0 then .err (.e .InvalidAmount) s
  else
    match calculate_health_factor s.pos.total_collateral_value_usd
        s.pos.total_borrow_value_usd LIQUIDATION_THRESHOLD with
    | .error er => .err er s
    | .ok healthFactor =>
    if ¬ (healthFactor < LIQUIDATION_THRESHOLD) then
      .err (.e .LiquidationNotAllowed) s
    else
      match get_asset_price 0 with
      | .error er => .err er s
      | .ok debtPrice =>
      match get_asset_price 1 with
      | .error er => .err er s
      | .ok collateralPrice =>
      match calculate_liquidation_amount debtAmount debtPrice collateralPrice
          LIQUIDATION_BONUS with
      | .error er => .err er s
      | .ok collateralToSeize =>
      if s.pos.collateral_balance < collateralToSeize then
        .err (.e .InsufficientCollateral) s
      else if ¬ env.transferOk 0 then .err .transferFail s
      else if ¬ env.transferOk 1 then .err .transferFail s
      else
        match checkedSub s.pos.borrow_balance debtAmount with
        | none => .err .overflowAbort s
        | some bb =>
          match checkedSub s.pos.collateral_balance collateralToSeize with
          | none => .err .overflowAbort { s with pos := { s.pos with borrow_balance := bb } }
          | some cb =>
            let pos2 := { s.pos with borrow_balance := bb, collateral_balance := cb }
            match update_health_factor pos2 with
            | .error er => .err er { s with pos := pos2 }
            | .ok pos3 =>
              .ok { s with
                      pos := pos3
                      events := s.events ++
                        [.liquidationEv liquidatorKey borrowerKey debtAmount
                          collateralToSeize pos3.health_factor] }

/-- `layerzero_receive` (lib.rs lines 398-448).  The dispatch handlers
`process_cross_chain_repay` / `process_cross_chain_liquidation`
(lib.rs lines 1247-1288) only log and mutate no ledger state. -/
def layerzero_receive (srcChainId : Nat) (_guid : List Nat) (payload : List Nat)
    (_env : Env) (s : ProgState) : TxOut ProgState :=
  if s.pool.is_paused then .err (.e .NotAuthorized) s
  else if ¬ chainSupported s.pool.supported_chains srcChainId then
    .err (.e .ChainNotSupported) s
  else
    match decodeMessage payload with
    | none => .err (.e .CrossChainFailed) s
    | some message =>
      if message.action = strRepay then
        .ok { s with events := s.events ++
          [.messageReceived message.user message.action message.amount srcChainId] }
      else if message.action = strLiquidate then
        .ok { s with events := s.events ++
          [.messageReceived message.user message.action message.amount srcChainId] }
      else .err (.e .CrossChainFailed) s

/-- `LzReceiveParams` (lib.rs lines 77-83). -/
structure LzReceiveParams where
  src_eid : Nat
  sender : List Nat
  nonce : Nat
  guid : List Nat
  message : List Nat
deriving DecidableEq, Repr

/-- `lz_receive` (lib.rs lines 476-526).  The Anchor context requires
`params.sender == peer.peer_address`; replay protection is a TODO and
`layerzero_endpoint_clear` (lib.rs lines 1396-1429) only logs, so the
state records nothing about consumed `(src_eid, sender, nonce)` triples
and the dispatch arms are logged no-ops. -/
def lz_receive (params : LzReceiveParams) (peerAddress : List Nat)
    (_env : Env) (s : ProgState) : TxOut ProgState :=
  if params.sender ≠ peerAddress then .err .constraintViolation s
  else if ¬ chainSupported s.pool.supported_chains params.src_eid then
    .err (.e .ChainNotSupported) s
  else
    match decodeMessage params.message with
    | none => .err (.e .CrossChainFailed) s
    | some message =>
      if message.action = strRepay then
        .ok { s with events := s.events ++
          [.messageReceived message.user message.action message.amount params.src_eid] }
      else if message.action = strLiquidate then
        .ok { s with events := s.events ++
          [.messageReceived message.user message.action message.amount params.src_eid] }
      else .err (.e .CrossChainFailed) s

/-- `SendParams` (lib.rs lines 96-103). -/
structure SendParams where
  dst_eid : Nat
  receiver : List Nat
  message : List Nat
  options : List Nat
  native_fee : Nat
  lz_token_fee : Nat
deriving DecidableEq, Repr

/-- `MessageFeeResult` (lib.rs lines 1297-1301). -/
structure MessageFeeResult where
  native_fee : Nat
  lz_token_fee : Nat
deriving DecidableEq, Repr

/-- `calculate_message_fee` (lib.rs lines 1310-1325): a placeholder of
1_000_000 lamports plus 100 per message byte. -/
def calculate_message_fee (params : SendParams) : MessageFeeResult :=
  { native_fee := 1000000 + params.message.length * 100, lz_token_fee := 0 }

/-- The mock GUID `layerzero_endpoint_send` builds (lib.rs lines
1382-1387): timestamp bytes, then the destination eid, then zeros. -/
def sendGuid (now : Int) (dstEid : Nat) : List Nat :=
  leBytes (i64ToNat now) 8 ++ leBytes dstEid 4 ++ List.replicate 20 0

/-- `send` (lib.rs lines 529-586).  `transfer_native_fee` and
`layerzero_endpoint_send` are logged placeholders that always succeed;
the CPI result always carries `Some` mock GUID, so the
`unwrap_or_else` fallback GUID is dead code. -/
def send (params : SendParams) (userKey : Nat) (env : Env) (s : ProgState) :
    TxOut ProgState :=
  if ¬ chainSupported s.pool.supported_chains params.dst_eid then
    .err (.e .ChainNotSupported) s
  else
    let feeResult := calculate_message_fee params
    if params.native_fee < feeResult.native_fee then .err (.e .InsufficientFee) s
    else
      match checkedAdd s.pool.message_nonce 1 with
      | none => .err .overflowAbort s
      | some n2 =>
        let pool2 := { s.pool with message_nonce := n2 }
        .ok { s with
                pool := pool2
                events := s.events ++
                  [.messageSent (sendGuid env.now params.dst_eid) userKey strSend
                    params.dst_eid (pool2.message_nonce - 1)] }

/-! ## Spec-side refinement definition -/

/-- Modelled from the spec: the two-step health-factor computation the spec
describes (`adjusted = collateral_usd * threshold / PRECISION`, then
`hf = adjusted * PRECISION / borrow_usd`, both multiplications checked),
defined only to be compared against `calculate_health_factor` from the
source. -/
def healthFactorSpecTwoStep (c b t : Nat) : Except TxErr Nat :=
  if b = 0 then .ok U64MAX
  else
    match checkedMul c t with
    | none => .error .overflowAbort
    | some m =>
      match checkedMul (m / PRECISION) PRECISION with
      | none => .error .overflowAbort
      | some n => .ok (n / b)

/-! ## Helper lemmas -/

theorem calculate_health_factor_error (c b t : Nat) (er : TxErr)
    (h : calculate_health_factor c b t = .error er) : er = .overflowAbort := by
  unfold calculate_health_factor at h
  repeat' split at h
  all_goals simp_all

theorem update_health_factor_error (p : UserPosition) (er : TxErr)
    (h : update_health_factor p = .error er) : er = .overflowAbort := by
  unfold update_health_factor at h
  split at h
  next er2 heq =>
    injection h with h1
    subst h1
    exact calculate_health_factor_error _ _ _ _ heq
  next => simp_all

/-! ## Concrete fixtures used by the witnesses and counterexamples -/

/-- A live pool supporting chain 40161, not paused, nonce 0. -/
def poolW : LendingPool :=
  { admin := 1, is_paused := false, total_assets := 1,
    supported_chains := [(40161, true)], message_nonce := 0 }

/-- An active asset with the maximal configured LTV 0.75 and the
per-asset liquidation threshold 0.95, 17-decimal token. -/
def assetW : AssetInfo :=
  { mint := 7, price_feed := 0, ltv := 750000000000000000,
    liquidation_threshold := 950000000000000000, is_active := true,
    can_be_collateral := true, can_be_borrowed := true,
    total_deposits := 100, total_borrows := 0, decimals := 17 }

/-- A debt-free position: 10 collateral units, worth 10 USD units at the
placeholder price. -/
def posW : UserPosition :=
  { user := 5, collateral_balance := 10, borrow_balance := 0,
    total_collateral_value_usd := 10, total_borrow_value_usd := 0,
    health_factor := U64MAX, last_action_timestamp := 0 }

def envW : Env := { now := 5000, transferOk := fun _ => true }


/-! ## Fixture states for individual claims -/

/-- The position of `posW` with stored USD totals `(2, 1)`: healthy. -/
def c1State : ProgState :=
  { pool := poolW, asset := assetW,
    pos := { posW with total_collateral_value_usd := 2,
                       total_borrow_value_usd := 1 },
    events := [] }

/-! ## C5 — health-factor formula -/

/-- C5 counterexample: at `(collateral_usd, borrow_usd, threshold) =
(3, 2, 0.5·PRECISION)` the source's `calculate_health_factor` returns
`3·t/2 = 0.75·PRECISION`, while the claimed two-step computation
(`adjusted = c·t/PRECISION`, then `adjusted·PRECISION/b`) returns
`0.5·PRECISION`: the claim's description of the computation is false of
the code. -/
theorem c5_counterexample :
    calculate_health_factor 3 2 500000000000000000 =
      .ok 750000000000000000 ∧
    healthFactorSpecTwoStep 3 2 500000000000000000 =
      .ok 500000000000000000 ∧
    (750000000000000000 : Nat) ≠ 500000000000000000 := by
  refine ⟨by decide, by decide, by decide⟩

/-- C5 (amended): `calculate_health_factor(c, b, t)` returns the
`u64::MAX` sentinel if `b = 0`; otherwise it returns `c * t / b` computed
with a single checked multiplication and a single division (no
intermediate division by `PRECISION`), and overflow of `c * t` past
`u64::MAX` aborts the operation as an arithmetic error. -/
theorem c5_health_factor_formula (c b t : Nat) :
    (b = 0 → calculate_health_factor c b t = .ok U64MAX) ∧
    (b ≠ 0 → c * t ≤ U64MAX →
      calculate_health_factor c b t = .ok (c * t / b)) ∧
    (b ≠ 0 → U64MAX < c * t →
      calculate_health_factor c b t = .error .overflowAbort) := by
  refine ⟨fun hb => ?_, fun hb hle => ?_, fun hb hgt => ?_⟩
  · simp [calculate_health_factor, hb]
  · simp [calculate_health_factor, hb, checkedMul, checkedDiv, hle]
  · simp [calculate_health_factor, hb, checkedMul, checkedDiv, Nat.not_le.mpr hgt]

/-- C5 witness: the amended theorem evaluated at `(2, 2, 0.95·PRECISION)`. -/
theorem c5_witness :
    ((2 : Nat) ≠ 0 ∧ 2 * 950000000000000000 ≤ U64MAX) ∧
    calculate_health_factor 2 2 950000000000000000 =
      .ok (2 * 950000000000000000 / 2) :=
  ⟨⟨by decide, by decide⟩,
    (c5_health_factor_formula 2 2 950000000000000000).2.1 (by decide) (by decide)⟩

/-! ## C1 — liquidation health gate -/

/-- C1: `liquidate` succeeds only when the borrower position's health
factor (computed by `calculate_health_factor` over the stored USD totals
and the global `LIQUIDATION_THRESHOLD`) is below `MIN_HEALTH_FACTOR`
(indeed the code demands the stricter `hf < LIQUIDATION_THRESHOLD`), and
on a position whose health factor is at or above `MIN_HEALTH_FACTOR` a
liquidation attempt with a nonzero debt amount fails with
`LiquidationNotAllowed`, returning the pre-state unchanged. -/
theorem c1_liquidate_health_gate (debtAmount liquidatorKey borrowerKey : Nat)
    (env : Env) (s : ProgState) :
    (∀ s', liquidate debtAmount liquidatorKey borrowerKey env s = .ok s' →
      ∃ hf, calculate_health_factor s.pos.total_collateral_value_usd
          s.pos.total_borrow_value_usd LIQUIDATION_THRESHOLD = .ok hf ∧
        hf < MIN_HEALTH_FACTOR) ∧
    (∀ hf, debtAmount ≠ 0 →
      calculate_health_factor s.pos.total_collateral_value_usd
          s.pos.total_borrow_value_usd LIQUIDATION_THRESHOLD = .ok hf →
      MIN_HEALTH_FACTOR ≤ hf →
      liquidate debtAmount liquidatorKey borrowerKey env s =
        .err (.e .LiquidationNotAllowed) s) := by
  constructor
  · intro s' h
    unfold liquidate at h
    split at h
    next => exact absurd h (by simp)
    next hdn =>
      split at h
      next er heq => exact absurd h (by simp)
      next hf heq =>
        split at h
        next => exact absurd h (by simp)
        next hnn =>
          refine ⟨hf, heq, ?_⟩
          have hlt : hf < LIQUIDATION_THRESHOLD := not_not.mp hnn
          exact Nat.lt_of_lt_of_le hlt (by decide)
  · intro hf hne hhf hge
    unfold liquidate
    rw [if_neg hne, hhf]
    have hnlt : ¬ hf < LIQUIDATION_THRESHOLD := by
      have hle : LIQUIDATION_THRESHOLD ≤ MIN_HEALTH_FACTOR := by decide
      omega
    simp [hnlt]

/-- C1 witness: a position with stored USD totals `(2, 1)` has health
factor `1.9·PRECISION ≥ MIN_HEALTH_FACTOR`, and liquidating it fails with
`LiquidationNotAllowed` leaving the state untouched. -/
theorem c1_witness :
    ((5 : Nat) ≠ 0 ∧
      calculate_health_factor c1State.pos.total_collateral_value_usd
          c1State.pos.total_borrow_value_usd LIQUIDATION_THRESHOLD =
        .ok 1900000000000000000 ∧
      MIN_HEALTH_FACTOR ≤ 1900000000000000000) ∧
    liquidate 5 11 12 envW c1State =
      .err (.e .LiquidationNotAllowed) c1State :=
  ⟨⟨by decide, by decide, by decide⟩,
    (c1_liquidate_health_gate 5 11 12 envW c1State).2 1900000000000000000
      (by decide) (by decide) (by decide)⟩

/-! ## C2 — borrow-time collateral bound -/

theorem health_factor_ge_min_bound (c b t hf : Nat)
    (h : calculate_health_factor c b t = .ok hf)
    (hge : MIN_HEALTH_FACTOR ≤ hf) : b ≤ c * t / PRECISION := by
  unfold calculate_health_factor checkedMul checkedDiv at h
  by_cases hb : b = 0
  · subst hb; exact Nat.zero_le _
  · by_cases hle : c * t ≤ U64MAX
    · simp only [hb, hle, if_true, if_false, if_neg, if_pos, ite_true, ite_false] at h
      simp only [Except.ok.injEq] at h
      have hbpos : 0 < b := Nat.pos_of_ne_zero hb
      have hppos : 0 < PRECISION := by decide
      have h1 : MIN_HEALTH_FACTOR * b ≤ c * t :=
        (Nat.le_div_iff_mul_le hbpos).mp (h ▸ hge)
      refine (Nat.le_div_iff_mul_le hppos).mpr ?_
      calc b * PRECISION = MIN_HEALTH_FACTOR * b := by
            unfold MIN_HEALTH_FACTOR; ring
        _ ≤ c * t := h1
    · simp [hb, hle] at h

/-- The base pre-state for the borrow counterexample: `posW` with 10
collateral units worth 10 USD units and no debt, against `assetW` whose
configured LTV is 0.75. -/
def c2State : ProgState :=
  { pool := poolW, asset := assetW, pos := posW, events := [] }

/-- The post-state of borrowing 9 units from `c2State`. -/
def c2Post : ProgState :=
  { pool := { poolW with message_nonce := 1 },
    asset := { assetW with total_borrows := 9 },
    pos := { posW with borrow_balance := 9, total_borrow_value_usd := 9,
                       health_factor := 1055555555555555555,
                       last_action_timestamp := 5000 },
    events := [.borrowEv 5 7 9 40161 1055555555555555555,
               .messageSent (List.replicate 32 0) 5 strBorrow 40161 0] }

/-- C2 counterexample: borrowing 9 units against 10 USD units of
collateral succeeds (health factor `10·0.95/9 ≈ 1.056 ≥ 1`), yet the
post-state has `borrow_value_usd = 9 > 7 = collateral_value_usd · ltv /
PRECISION` for the asset's configured `ltv = 0.75`: the claimed LTV bound
does not hold after every successful borrow, because the code checks
against the global `LIQUIDATION_THRESHOLD`, not the asset's `ltv`. -/
theorem c2_counterexample :
    borrow_cross_chain 9 40161 (List.replicate 32 0) 5 7 envW c2State =
      .ok c2Post ∧
    c2Post.pos.total_borrow_value_usd >
      c2Post.pos.total_collateral_value_usd * c2State.asset.ltv / PRECISION := by
  refine ⟨by decide, by decide⟩

/-- C2 (amended): after every successful `borrow_cross_chain` the
post-state satisfies `total_borrow_value_usd ≤ collateral_value_usd *
LIQUIDATION_THRESHOLD / PRECISION` (where `collateral_value_usd` is the
USD value the handler computes from the pre-state collateral balance at
the placeholder oracle price), and a borrow rejected with
`HealthFactorTooLow` leaves the state unchanged. -/
theorem c2_borrow_threshold_bound (amount destChainId : Nat) (receiver : List Nat)
    (userKey mintKey : Nat) (env : Env) (s : ProgState) :
    (∀ s', borrow_cross_chain amount destChainId receiver userKey mintKey env s =
        .ok s' →
      ∃ cv, calculate_usd_value s.pos.collateral_balance 100000000000000000
          s.asset.decimals = .ok cv ∧
        s'.pos.total_borrow_value_usd ≤ cv * LIQUIDATION_THRESHOLD / PRECISION) ∧
    (∀ s'', borrow_cross_chain amount destChainId receiver userKey mintKey env s =
        .err (.e .HealthFactorTooLow) s'' → s'' = s) := by
  constructor
  · intro s' h
    unfold borrow_cross_chain at h
    split at h
    next => exact absurd h (by simp)
    next hamt =>
    split at h
    next => exact absurd h (by simp)
    next hpause =>
    split at h
    next => exact absurd h (by simp)
    next hactive =>
    split at h
    next => exact absurd h (by simp)
    next hborrowable =>
    split at h
    next => exact absurd h (by simp)
    next hchain =>
    split at h
    next => exact absurd h (by simp)
    next hrate =>
    split at h
    next => exact absurd h (by simp)
    next cp hcp =>
    split at h
    next => exact absurd h (by simp)
    next bp hbp =>
    split at h
    next => exact absurd h (by simp)
    next cv hcv =>
    split at h
    next => exact absurd h (by simp)
    next bv hbv =>
    split at h
    next => exact absurd h (by simp)
    next ntb hntb =>
    split at h
    next => exact absurd h (by simp)
    next hfv hhfv =>
    split at h
    next => exact absurd h (by simp)
    next hge =>
    split at h
    next => exact absurd h (by simp)
    next bb hbb =>
    split at h
    next => exact absurd h (by simp)
    next tb htb =>
    split at h
    next => exact absurd h (by simp)
    next n2 hn2 =>
    injection h with hs
    subst hs
    simp only [get_asset_price, Except.ok.injEq] at hcp
    subst hcp
    refine ⟨cv, hcv, ?_⟩
    show ntb ≤ cv * LIQUIDATION_THRESHOLD / PRECISION
    push_neg at hge
    exact health_factor_ge_min_bound cv ntb LIQUIDATION_THRESHOLD hfv hhfv hge
  · intro s'' h
    unfold borrow_cross_chain at h
    repeat' split at h
    all_goals first
      | exact TxOut.noConfusion h
      | (injection h with h1 h2; first
          | exact h2.symm
          | exact absurd h1 (by simp))

/-- C2 witness: the amended bound evaluated on the successful borrow of
the counterexample state: `9 ≤ 10 · 0.95 = 9`. -/
theorem c2_witness :
    borrow_cross_chain 9 40161 (List.replicate 32 0) 5 7 envW c2State =
      .ok c2Post ∧
    (∃ cv, calculate_usd_value c2State.pos.collateral_balance 100000000000000000
        c2State.asset.decimals = .ok cv ∧
      c2Post.pos.total_borrow_value_usd ≤ cv * LIQUIDATION_THRESHOLD / PRECISION) :=
  ⟨by decide,
    (c2_borrow_threshold_bound 9 40161 (List.replicate 32 0) 5 7 envW c2State).1
      c2Post (by decide)⟩

/-! ## C6 — errors mutate nothing -/

theorem deposit_err_frame (amount userKey mintKey : Nat) (env : Env)
    (s s' : ProgState) (er : TxErr)
    (h : deposit amount userKey mintKey env s = .err er s')
    (hne : er ≠ .overflowAbort) : s' = s := by
  unfold deposit at h
  try simp only [] at h
  repeat' split at h
  all_goals first
    | exact TxOut.noConfusion h
    | (injection h with h1 h2; first
        | exact h2.symm
        | exact absurd h1.symm hne
        | exact absurd (h1 ▸ update_health_factor_error _ _ (by assumption)) hne)

theorem borrow_err_frame (amount destChainId : Nat) (receiver : List Nat)
    (userKey mintKey : Nat) (env : Env) (s s' : ProgState) (er : TxErr)
    (h : borrow_cross_chain amount destChainId receiver userKey mintKey env s =
      .err er s')
    (hne : er ≠ .overflowAbort) : s' = s := by
  unfold borrow_cross_chain at h
  try simp only [] at h
  repeat' split at h
  all_goals first
    | exact TxOut.noConfusion h
    | (injection h with h1 h2; first
        | exact h2.symm
        | exact absurd h1.symm hne)

theorem repay_err_frame (repayAmount userKey mintKey : Nat) (env : Env)
    (s s' : ProgState) (er : TxErr)
    (h : repay repayAmount userKey mintKey env s = .err er s')
    (hne : er ≠ .overflowAbort) : s' = s := by
  unfold repay at h
  try simp only [] at h
  repeat' split at h
  all_goals first
    | exact TxOut.noConfusion h
    | (injection h with h1 h2; first
        | exact h2.symm
        | exact absurd h1.symm hne
        | exact absurd (h1 ▸ update_health_factor_error _ _ (by assumption)) hne)

theorem withdraw_err_frame (amount mintDecimals userKey mintKey : Nat) (env : Env)
    (s s' : ProgState) (er : TxErr)
    (h : withdraw amount mintDecimals userKey mintKey env s = .err er s')
    (hne : er ≠ .overflowAbort) : s' = s := by
  unfold withdraw at h
  try simp only [] at h
  repeat' split at h
  all_goals first
    | exact TxOut.noConfusion h
    | (injection h with h1 h2; first
        | exact h2.symm
        | exact absurd h1.symm hne)

theorem liquidate_err_frame (debtAmount liquidatorKey borrowerKey : Nat) (env : Env)
    (s s' : ProgState) (er : TxErr)
    (h : liquidate debtAmount liquidatorKey borrowerKey env s = .err er s')
    (hne : er ≠ .overflowAbort) : s' = s := by
  unfold liquidate at h
  try simp only [] at h
  repeat' split at h
  all_goals first
    | exact TxOut.noConfusion h
    | (injection h with h1 h2; first
        | exact h2.symm
        | exact absurd h1.symm hne
        | exact absurd (h1 ▸ update_health_factor_error _ _ (by assumption)) hne)

theorem layerzero_receive_err_frame (srcChainId : Nat) (guid payload : List Nat)
    (env : Env) (s s' : ProgState) (er : TxErr)
    (h : layerzero_receive srcChainId guid payload env s = .err er s') : s' = s := by
  unfold layerzero_receive at h
  try simp only [] at h
  repeat' split at h
  all_goals first
    | exact TxOut.noConfusion h
    | (injection h with h1 h2; exact h2.symm)

theorem send_err_frame (params : SendParams) (userKey : Nat) (env : Env)
    (s s' : ProgState) (er : TxErr)
    (h : send params userKey env s = .err er s') : s' = s := by
  unfold send at h
  try simp only [] at h
  repeat' split at h
  all_goals first
    | exact TxOut.noConfusion h
    | (injection h with h1 h2; exact h2.symm)

/-- C6: whenever `deposit`, `borrow_cross_chain`, `repay`, `withdraw`,
`liquidate`, `layerzero_receive`, or `send` returns an error, the
returned state — pool, asset aggregates, position and its derived USD
values and health factor, message nonce, and emitted events — is the
pre-state, unchanged.  (A `checked_*` arithmetic panic is not a returned
error: it aborts the transaction and the host rolls back, per the
modelling note on `TxOut`.) -/
theorem c6_error_frame (env : Env) (s s' : ProgState) (er : TxErr)
    (hne : er ≠ .overflowAbort) :
    (∀ amount userKey mintKey,
      deposit amount userKey mintKey env s = .err er s' → s' = s) ∧
    (∀ amount destChainId receiver userKey mintKey,
      borrow_cross_chain amount destChainId receiver userKey mintKey env s =
        .err er s' → s' = s) ∧
    (∀ repayAmount userKey mintKey,
      repay repayAmount userKey mintKey env s = .err er s' → s' = s) ∧
    (∀ amount mintDecimals userKey mintKey,
      withdraw amount mintDecimals userKey mintKey env s = .err er s' → s' = s) ∧
    (∀ debtAmount liquidatorKey borrowerKey,
      liquidate debtAmount liquidatorKey borrowerKey env s = .err er s' → s' = s) ∧
    (∀ srcChainId guid payload,
      layerzero_receive srcChainId guid payload env s = .err er s' → s' = s) ∧
    (∀ params userKey,
      send params userKey env s = .err er s' → s' = s) :=
  ⟨fun a u m h => deposit_err_frame a u m env s s' er h hne,
   fun a d r u m h => borrow_err_frame a d r u m env s s' er h hne,
   fun a u m h => repay_err_frame a u m env s s' er h hne,
   fun a d u m h => withdraw_err_frame a d u m env s s' er h hne,
   fun a l b h => liquidate_err_frame a l b env s s' er h hne,
   fun c g p h => layerzero_receive_err_frame c g p env s s' er h,
   fun p u h => send_err_frame p u env s s' er h⟩

/-- C6 witness: a zero-amount deposit fails with `InvalidAmount` and the
theorem yields that the returned state is the unchanged pre-state. -/
theorem c6_witness :
    (TxErr.e .InvalidAmount ≠ TxErr.overflowAbort ∧
      deposit 0 5 7 envW c2State = .err (.e .InvalidAmount) c2State) ∧
    c2State = c2State :=
  ⟨⟨by decide, by decide⟩,
    (c6_error_frame envW c2State c2State (.e .InvalidAmount) (by decide)).1
      0 5 7 (by decide)⟩

/-! ## C4 — rate-limit coverage -/

theorem calculate_usd_value_error (a p d : Nat) (er : TxErr)
    (h : calculate_usd_value a p d = .error er) : er = .overflowAbort := by
  unfold calculate_usd_value at h
  repeat' split at h
  all_goals simp_all

theorem calculate_liquidation_amount_error (da dp cp bo : Nat) (er : TxErr)
    (h : calculate_liquidation_amount da dp cp bo = .error er) :
    er = .overflowAbort := by
  unfold calculate_liquidation_amount at h
  repeat' split at h
  all_goals simp_all

/-- `posW` still inside the 900-second cooldown window at `envW.now`. -/
def c4State : ProgState :=
  { pool := poolW, asset := assetW,
    pos := { posW with last_action_timestamp := 4500 }, events := [] }

/-- The post-state of withdrawing 1 unit from `c4State`. -/
def c4Post : ProgState :=
  { pool := poolW, asset := { assetW with total_deposits := 99 },
    pos := { posW with collateral_balance := 9,
                       total_collateral_value_usd := 9,
                       last_action_timestamp := 4500 },
    events := [.withdrawEv 5 7 1] }

/-- C4 counterexample: `c4State` is still rate-limited
(`4500 + 900 > 5000`), yet `withdraw` succeeds — the source's `withdraw`
has no rate-limit check at all, so the claim that withdraw fails with
`RateLimited` inside the cooldown window is false. -/
theorem c4_counterexample :
    c4State.pos.last_action_timestamp + 900 > envW.now ∧
    withdraw 1 17 5 7 envW c4State = .ok c4Post := by
  refine ⟨by decide, by decide⟩

/-- C4 (amended): `deposit`, `borrow_cross_chain`, and `repay` fail with
`RateLimited` (mutating nothing) whenever
`last_action_timestamp + 900 > now` and the checks preceding the
rate-limit gate pass; `withdraw` and `liquidate` never return
`RateLimited`; and at `now ≥ last_action_timestamp + 900` none of
`deposit`, `borrow_cross_chain`, `repay` returns `RateLimited`. -/
theorem c4_rate_limit (env : Env) (s : ProgState) :
    (∀ amount userKey mintKey, amount ≠ 0 → s.pool.is_paused = false →
      s.asset.is_active = true → s.asset.can_be_collateral = true →
      s.pos.last_action_timestamp + 900 > env.now →
      deposit amount userKey mintKey env s = .err (.e .RateLimited) s) ∧
    (∀ amount destChainId receiver userKey mintKey, amount ≠ 0 →
      s.pool.is_paused = false → s.asset.is_active = true →
      s.asset.can_be_borrowed = true →
      chainSupported s.pool.supported_chains destChainId = true →
      s.pos.last_action_timestamp + 900 > env.now →
      borrow_cross_chain amount destChainId receiver userKey mintKey env s =
        .err (.e .RateLimited) s) ∧
    (∀ repayAmount userKey mintKey, repayAmount ≠ 0 →
      s.pool.is_paused = false → s.pos.user ≠ 0 →
      repayAmount ≤ s.pos.borrow_balance →
      s.pos.last_action_timestamp + 900 > env.now →
      repay repayAmount userKey mintKey env s = .err (.e .RateLimited) s) ∧
    (∀ amount mintDecimals userKey mintKey er s',
      withdraw amount mintDecimals userKey mintKey env s = .err er s' →
      er ≠ .e .RateLimited) ∧
    (∀ debtAmount liquidatorKey borrowerKey er s',
      liquidate debtAmount liquidatorKey borrowerKey env s = .err er s' →
      er ≠ .e .RateLimited) ∧
    (∀ amount userKey mintKey s', env.now ≥ s.pos.last_action_timestamp + 900 →
      deposit amount userKey mintKey env s ≠ .err (.e .RateLimited) s') ∧
    (∀ amount destChainId receiver userKey mintKey s',
      env.now ≥ s.pos.last_action_timestamp + 900 →
      borrow_cross_chain amount destChainId receiver userKey mintKey env s ≠
        .err (.e .RateLimited) s') ∧
    (∀ repayAmount userKey mintKey s',
      env.now ≥ s.pos.last_action_timestamp + 900 →
      repay repayAmount userKey mintKey env s ≠ .err (.e .RateLimited) s') := by
  refine ⟨?_, ?_, ?_, ?_, ?_, ?_, ?_, ?_⟩
  · intro amount userKey mintKey hamt hpause hactive hcoll hrate
    simp [deposit, hamt, hpause, hactive, hcoll, hrate]
  · intro amount destChainId receiver userKey mintKey hamt hpause hactive hbor hchain hrate
    simp [borrow_cross_chain, hamt, hpause, hactive, hbor, hchain, hrate]
  · intro repayAmount userKey mintKey hamt hpause huser hbal hrate
    simp [repay, hamt, hpause, huser, Nat.not_lt.mpr hbal, hrate]
  · intro amount mintDecimals userKey mintKey er s' h
    unfold withdraw at h
    try simp only [] at h
    repeat' split at h
    all_goals first
      | exact TxOut.noConfusion h
      | (injection h with h1 h2; subst h1; first
          | decide
          | (have h3 := calculate_usd_value_error _ _ _ _ (by assumption);
             subst h3; decide)
          | (have h3 := calculate_health_factor_error _ _ _ _ (by assumption);
             subst h3; decide)
          | simp_all [get_asset_price])
  · intro debtAmount liquidatorKey borrowerKey er s' h
    unfold liquidate at h
    try simp only [] at h
    repeat' split at h
    all_goals first
      | exact TxOut.noConfusion h
      | (injection h with h1 h2; subst h1; first
          | decide
          | (have h3 := calculate_liquidation_amount_error _ _ _ _ _ (by assumption);
             subst h3; decide)
          | (have h3 := calculate_health_factor_error _ _ _ _ (by assumption);
             subst h3; decide)
          | (have h3 := update_health_factor_error _ _ (by assumption);
             subst h3; decide)
          | simp_all [get_asset_price])
  · intro amount userKey mintKey s' hexp heq
    unfold deposit at heq
    try simp only [] at heq
    repeat' split at heq
    all_goals first
      | exact TxOut.noConfusion heq
      | (injection heq with h1 h2; first
          | exact absurd h1 (by decide)
          | omega
          | exact absurd ((update_health_factor_error _ _ (by assumption)) ▸ h1)
              (by decide))
  · intro amount destChainId receiver userKey mintKey s' hexp heq
    unfold borrow_cross_chain at heq
    try simp only [] at heq
    repeat' split at heq
    all_goals first
      | exact TxOut.noConfusion heq
      | (injection heq with h1 h2; first
          | exact absurd h1 (by decide)
          | omega
          | exact absurd ((calculate_usd_value_error _ _ _ _ (by assumption)) ▸ h1)
              (by decide)
          | exact absurd ((calculate_health_factor_error _ _ _ _ (by assumption)) ▸ h1)
              (by decide)
          | simp_all [get_asset_price])
  · intro repayAmount userKey mintKey s' hexp heq
    unfold repay at heq
    try simp only [] at heq
    repeat' split at heq
    all_goals first
      | exact TxOut.noConfusion heq
      | (injection heq with h1 h2; first
          | exact absurd h1 (by decide)
          | omega
          | exact absurd ((update_health_factor_error _ _ (by assumption)) ▸ h1)
              (by decide))

/-- C4 witness: a deposit inside the cooldown window fails with
`RateLimited`, mutating nothing. -/
theorem c4_witness :
    ((3 : Nat) ≠ 0 ∧ c4State.pool.is_paused = false ∧
      c4State.asset.is_active = true ∧ c4State.asset.can_be_collateral = true ∧
      c4State.pos.last_action_timestamp + 900 > envW.now) ∧
    deposit 3 5 7 envW c4State = .err (.e .RateLimited) c4State :=
  ⟨⟨by decide, by decide, by decide, by decide, by decide⟩,
    (c4_rate_limit envW c4State).1 3 5 7 (by decide) (by decide) (by decide)
      (by decide) (by decide)⟩

/-! ## C7 — last_action_timestamp updates -/

theorem update_health_factor_ok (p p' : UserPosition)
    (h : update_health_factor p = .ok p') :
    ∃ hf, p' = { p with health_factor := hf } := by
  unfold update_health_factor at h
  split at h
  next er heq => exact absurd h (by simp)
  next hf heq =>
    injection h with h1
    exact ⟨hf, h1.symm⟩

/-- The post-state of withdrawing 2 units from `c2State`. -/
def c7Post : ProgState :=
  { pool := poolW, asset := { assetW with total_deposits := 98 },
    pos := { posW with collateral_balance := 8,
                       total_collateral_value_usd := 8 },
    events := [.withdrawEv 5 7 2] }

/-- C7 counterexample: a successful `withdraw` leaves
`last_action_timestamp` at its old value (0) instead of setting it to the
current time (5000) — the source's `withdraw` (and `liquidate`) never
write that field, so the claim that every successful mutating operation
sets it to `now` is false. -/
theorem c7_counterexample :
    withdraw 2 17 5 7 envW c2State = .ok c7Post ∧
    c7Post.pos.last_action_timestamp ≠ envW.now := by
  refine ⟨by decide, by decide⟩

/-- C7 (amended): successful `deposit`, `borrow_cross_chain`, and `repay`
set the position's `last_action_timestamp` to the current time, while
successful `withdraw` and `liquidate` leave it unchanged. -/
theorem c7_timestamp_update (env : Env) (s : ProgState) :
    (∀ amount userKey mintKey s',
      deposit amount userKey mintKey env s = .ok s' →
      s'.pos.last_action_timestamp = env.now) ∧
    (∀ amount destChainId receiver userKey mintKey s',
      borrow_cross_chain amount destChainId receiver userKey mintKey env s =
        .ok s' → s'.pos.last_action_timestamp = env.now) ∧
    (∀ repayAmount userKey mintKey s',
      repay repayAmount userKey mintKey env s = .ok s' →
      s'.pos.last_action_timestamp = env.now) ∧
    (∀ amount mintDecimals userKey mintKey s',
      withdraw amount mintDecimals userKey mintKey env s = .ok s' →
      s'.pos.last_action_timestamp = s.pos.last_action_timestamp) ∧
    (∀ debtAmount liquidatorKey borrowerKey s',
      liquidate debtAmount liquidatorKey borrowerKey env s = .ok s' →
      s'.pos.last_action_timestamp = s.pos.last_action_timestamp) := by
  refine ⟨?_, ?_, ?_, ?_, ?_⟩
  · intro amount userKey mintKey s' h
    unfold deposit at h
    try simp only [] at h
    repeat' split at h
    all_goals first
      | exact TxOut.noConfusion h
      | (injection h with hs; subst hs; first
          | rfl
          | (obtain ⟨hf, hp⟩ := update_health_factor_ok _ _ (by assumption);
             subst hp; rfl))
  · intro amount destChainId receiver userKey mintKey s' h
    unfold borrow_cross_chain at h
    try simp only [] at h
    repeat' split at h
    all_goals first
      | exact TxOut.noConfusion h
      | (injection h with hs; subst hs; rfl)
  · intro repayAmount userKey mintKey s' h
    unfold repay at h
    try simp only [] at h
    repeat' split at h
    all_goals first
      | exact TxOut.noConfusion h
      | (injection h with hs; subst hs; first
          | rfl
          | (obtain ⟨hf, hp⟩ := update_health_factor_ok _ _ (by assumption);
             subst hp; rfl))
  · intro amount mintDecimals userKey mintKey s' h
    unfold withdraw at h
    try simp only [] at h
    repeat' split at h
    all_goals first
      | exact TxOut.noConfusion h
      | (injection h with hs; subst hs; rfl)
  · intro debtAmount liquidatorKey borrowerKey s' h
    unfold liquidate at h
    try simp only [] at h
    repeat' split at h
    all_goals first
      | exact TxOut.noConfusion h
      | (injection h with hs; subst hs; first
          | rfl
          | (obtain ⟨hf, hp⟩ := update_health_factor_ok _ _ (by assumption);
             subst hp; rfl))

/-- The post-state of depositing 3 units into `c2State`. -/
def c7DepositPost : ProgState :=
  { pool := poolW, asset := { assetW with total_deposits := 103 },
    pos := { posW with collateral_balance := 13,
                       last_action_timestamp := 5000 },
    events := [.depositEv 5 7 3 0] }

/-- C7 witness: a successful deposit stamps the position with the current
time. -/
theorem c7_witness :
    deposit 3 5 7 envW c2State = .ok c7DepositPost ∧
    c7DepositPost.pos.last_action_timestamp = envW.now :=
  ⟨by decide, (c7_timestamp_update envW c2State).1 3 5 7 c7DepositPost (by decide)⟩

/-! ## C8 — outbound nonce allocation -/

theorem checkedAdd_some (a b c : Nat) (h : checkedAdd a b = some c) : c = a + b := by
  unfold checkedAdd at h
  split at h
  · injection h with h1; exact h1.symm
  · simp at h

/-- C8: every successful `borrow_cross_chain` or `send` increments
`pool.message_nonce` by exactly one, the `CrossChainMessage` built by the
borrow and the emitted `messageSent` events carry the pre-increment
nonce, and no other operation touches the nonce — so the outbound nonce
is monotonically increasing across all operations. -/
theorem c8_nonce_monotone (env : Env) (s : ProgState) :
    (∀ amount destChainId receiver userKey mintKey s',
      borrow_cross_chain amount destChainId receiver userKey mintKey env s =
        .ok s' →
      s'.pool.message_nonce = s.pool.message_nonce + 1 ∧
      (borrowMessage amount destChainId receiver userKey mintKey env s).nonce =
        s.pool.message_nonce ∧
      s'.events = s.events ++
        [.borrowEv userKey mintKey amount destChainId s'.pos.health_factor,
         .messageSent (List.replicate 32 0) userKey strBorrow destChainId
           s.pool.message_nonce]) ∧
    (∀ params userKey s', send params userKey env s = .ok s' →
      s'.pool.message_nonce = s.pool.message_nonce + 1 ∧
      s'.events = s.events ++
        [.messageSent (sendGuid env.now params.dst_eid) userKey strSend
          params.dst_eid s.pool.message_nonce]) ∧
    (∀ amount userKey mintKey s', deposit amount userKey mintKey env s = .ok s' →
      s'.pool.message_nonce = s.pool.message_nonce) ∧
    (∀ repayAmount userKey mintKey s',
      repay repayAmount userKey mintKey env s = .ok s' →
      s'.pool.message_nonce = s.pool.message_nonce) ∧
    (∀ amount mintDecimals userKey mintKey s',
      withdraw amount mintDecimals userKey mintKey env s = .ok s' →
      s'.pool.message_nonce = s.pool.message_nonce) ∧
    (∀ debtAmount liquidatorKey borrowerKey s',
      liquidate debtAmount liquidatorKey borrowerKey env s = .ok s' →
      s'.pool.message_nonce = s.pool.message_nonce) ∧
    (∀ srcChainId guid payload s',
      layerzero_receive srcChainId guid payload env s = .ok s' →
      s'.pool.message_nonce = s.pool.message_nonce) ∧
    (∀ params peerAddress s', lz_receive params peerAddress env s = .ok s' →
      s'.pool.message_nonce = s.pool.message_nonce) := by
  refine ⟨?_, ?_, ?_, ?_, ?_, ?_, ?_, ?_⟩
  · intro amount destChainId receiver userKey mintKey s' h
    unfold borrow_cross_chain at h
    try simp only [] at h
    repeat' split at h
    all_goals try exact TxOut.noConfusion h
    injection h with hs
    subst hs
    have hn := checkedAdd_some _ _ _ (by assumption)
    subst hn
    refine ⟨rfl, rfl, ?_⟩
    simp
  · intro params userKey s' h
    unfold send at h
    try simp only [] at h
    repeat' split at h
    all_goals try exact TxOut.noConfusion h
    injection h with hs
    subst hs
    have hn := checkedAdd_some _ _ _ (by assumption)
    subst hn
    refine ⟨rfl, ?_⟩
    simp
  · intro amount userKey mintKey s' h
    unfold deposit at h
    try simp only [] at h
    repeat' split at h
    all_goals first
      | exact TxOut.noConfusion h
      | (injection h with hs; subst hs; rfl)
  · intro repayAmount userKey mintKey s' h
    unfold repay at h
    try simp only [] at h
    repeat' split at h
    all_goals first
      | exact TxOut.noConfusion h
      | (injection h with hs; subst hs; rfl)
  · intro amount mintDecimals userKey mintKey s' h
    unfold withdraw at h
    try simp only [] at h
    repeat' split at h
    all_goals first
      | exact TxOut.noConfusion h
      | (injection h with hs; subst hs; rfl)
  · intro debtAmount liquidatorKey borrowerKey s' h
    unfold liquidate at h
    try simp only [] at h
    repeat' split at h
    all_goals first
      | exact TxOut.noConfusion h
      | (injection h with hs; subst hs; rfl)
  · intro srcChainId guid payload s' h
    unfold layerzero_receive at h
    repeat' split at h
    all_goals first
      | exact TxOut.noConfusion h
      | (injection h with hs; subst hs; rfl)
  · intro params peerAddress s' h
    unfold lz_receive at h
    repeat' split at h
    all_goals first
      | exact TxOut.noConfusion h
      | (injection h with hs; subst hs; rfl)

/-- C8 witness: the successful borrow from `c2State` bumps the nonce from
0 to 1. -/
theorem c8_witness :
    borrow_cross_chain 9 40161 (List.replicate 32 0) 5 7 envW c2State =
      .ok c2Post ∧
    c2Post.pool.message_nonce = c2State.pool.message_nonce + 1 :=
  ⟨by decide,
    ((c8_nonce_monotone envW c2State).1 9 40161 (List.replicate 32 0) 5 7
      c2Post (by decide)).1⟩

/-! ## C9 — inbound dispatch handlers mutate nothing -/

/-- C9: a successful `layerzero_receive` leaves the user position (all
balances, USD values, health factor), the asset aggregates, and the pool
unchanged: the `repay`/`liquidate` dispatch handlers perform no ledger
mutation. -/
theorem c9_receive_dispatch_frame (srcChainId : Nat) (guid payload : List Nat)
    (env : Env) (s s' : ProgState)
    (h : layerzero_receive srcChainId guid payload env s = .ok s') :
    s'.pos = s.pos ∧ s'.asset = s.asset ∧ s'.pool = s.pool := by
  unfold layerzero_receive at h
  repeat' split at h
  all_goals first
    | exact TxOut.noConfusion h
    | (injection h with hs; subst hs; exact ⟨rfl, rfl, rfl⟩)

/-- A well-formed inbound repay message from chain 40161. -/
def c9Msg : CrossChainMessage :=
  { action := strRepay, user := 5, amount := 40, asset := 7, timestamp := 123,
    source_chain := 40161, dest_chain := 40168,
    receiver := List.replicate 32 0, nonce := 3 }

def c9Post : ProgState :=
  { c2State with events := [.messageReceived 5 strRepay 40 40161] }

set_option maxRecDepth 10000 in
/-- C9 witness: delivering an encoded repay message succeeds and changes
no position, asset, or pool field. -/
theorem c9_witness :
    layerzero_receive 40161 (List.replicate 32 0) (borshEncodeMessage c9Msg)
      envW c2State = .ok c9Post ∧
    (c9Post.pos = c2State.pos ∧ c9Post.asset = c2State.asset ∧
      c9Post.pool = c2State.pool) :=
  ⟨by decide,
    c9_receive_dispatch_frame 40161 (List.replicate 32 0)
      (borshEncodeMessage c9Msg) envW c2State c9Post (by decide)⟩

/-! ## C3 — replayed inbound messages are not rejected -/

theorem lz_receive_ok_inv (params : LzReceiveParams) (peerAddress : List Nat)
    (env : Env) (s s' : ProgState)
    (h : lz_receive params peerAddress env s = .ok s') :
    params.sender = peerAddress ∧
    chainSupported s.pool.supported_chains params.src_eid = true ∧
    (∃ m, decodeMessage params.message = some m ∧
      (m.action = strRepay ∨ m.action = strLiquidate)) ∧
    s'.pool = s.pool := by
  unfold lz_receive at h
  split at h
  next => exact absurd h (by simp)
  next hsender =>
  split at h
  next => exact absurd h (by simp)
  next hchain =>
  split at h
  next => exact absurd h (by simp)
  next m hdec =>
  split at h
  next hact =>
    injection h with hs
    subst hs
    exact ⟨not_not.mp hsender, not_not.mp hchain, ⟨m, hdec, Or.inl hact⟩, rfl⟩
  next hact1 =>
  split at h
  next hact2 =>
    injection h with hs
    subst hs
    exact ⟨not_not.mp hsender, not_not.mp hchain, ⟨m, hdec, Or.inr hact2⟩, rfl⟩
  next => exact absurd h (by simp)

theorem lz_receive_accepts (params : LzReceiveParams) (peerAddress : List Nat)
    (env : Env) (s : ProgState)
    (h1 : params.sender = peerAddress)
    (h2 : chainSupported s.pool.supported_chains params.src_eid = true)
    (m : CrossChainMessage) (hdec : decodeMessage params.message = some m)
    (hact : m.action = strRepay ∨ m.action = strLiquidate) :
    ∃ s'', lz_receive params peerAddress env s = .ok s'' := by
  unfold lz_receive
  rw [if_neg (by simp [h1]), if_neg (by simp [h2]), hdec]
  simp only []
  by_cases hr : m.action = strRepay
  · rw [if_pos hr]
    exact ⟨_, rfl⟩
  · rcases hact with hact | hact
    · exact absurd hact hr
    · rw [if_neg hr, if_pos hact]
      exact ⟨_, rfl⟩

/-- C3: the reference implementation keeps no replay bookkeeping — if
`lz_receive` accepts a message `(src_eid, sender, nonce)` once, then
delivering the very same message again is accepted again (returns `Ok`)
instead of being rejected.  The spec itself flags the missing
de-duplication record as a correctness gap, so this is a bug in the code,
not in the claim. -/
theorem c3_replay_not_rejected (params : LzReceiveParams) (peerAddress : List Nat)
    (env env' : Env) (s s' : ProgState)
    (h : lz_receive params peerAddress env s = .ok s') :
    ∃ s'', lz_receive params peerAddress env' s' = .ok s'' := by
  obtain ⟨h1, h2, ⟨m, hdec, hact⟩, hpool⟩ :=
    lz_receive_ok_inv params peerAddress env s s' h
  refine lz_receive_accepts params peerAddress env' s' h1 ?_ m hdec hact
  rw [hpool]
  exact h2

/-- A replayed inbound message and its first-delivery post-state. -/
def c3Msg : CrossChainMessage :=
  { action := strRepay, user := 6, amount := 41, asset := 7, timestamp := 200,
    source_chain := 40161, dest_chain := 40168,
    receiver := List.replicate 32 0, nonce := 7 }

def c3Params : LzReceiveParams :=
  { src_eid := 40161, sender := List.replicate 32 1, nonce := 7,
    guid := List.replicate 32 2, message := borshEncodeMessage c3Msg }

def c3Mid : ProgState :=
  { c2State with events := [.messageReceived 6 strRepay 41 40161] }

set_option maxRecDepth 10000 in
/-- C3 witness: the same `(src_eid, sender, nonce)` message is accepted a
second time after its first successful dispatch. -/
theorem c3_witness :
    lz_receive c3Params (List.replicate 32 1) envW c2State = .ok c3Mid ∧
    (∃ s'', lz_receive c3Params (List.replicate 32 1) envW c3Mid = .ok s'') :=
  ⟨by decide,
    c3_replay_not_rejected c3Params (List.replicate 32 1) envW envW c2State
      c3Mid (by decide)⟩

/-! ## C10 — liquidation ignores the pause flag -/

/-- C10: `liquidate` never fails with `NotAuthorized` (it reads the pause
flag nowhere), while `deposit`, `borrow_cross_chain`, `repay`, and
`withdraw` all fail with `NotAuthorized` (mutating nothing) on a paused
pool whenever their amount check passes. -/
theorem c10_pause_gate (env : Env) (s : ProgState) :
    (∀ debtAmount liquidatorKey borrowerKey er s',
      liquidate debtAmount liquidatorKey borrowerKey env s = .err er s' →
      er ≠ .e .NotAuthorized) ∧
    (s.pool.is_paused = true →
      (∀ amount userKey mintKey, amount ≠ 0 →
        deposit amount userKey mintKey env s = .err (.e .NotAuthorized) s) ∧
      (∀ amount destChainId receiver userKey mintKey, amount ≠ 0 →
        borrow_cross_chain amount destChainId receiver userKey mintKey env s =
          .err (.e .NotAuthorized) s) ∧
      (∀ repayAmount userKey mintKey, repayAmount ≠ 0 →
        repay repayAmount userKey mintKey env s = .err (.e .NotAuthorized) s) ∧
      (∀ amount mintDecimals userKey mintKey, amount ≠ 0 →
        withdraw amount mintDecimals userKey mintKey env s =
          .err (.e .NotAuthorized) s)) := by
  constructor
  · intro debtAmount liquidatorKey borrowerKey er s' h
    unfold liquidate at h
    try simp only [] at h
    repeat' split at h
    all_goals first
      | exact TxOut.noConfusion h
      | (injection h with h1 h2; subst h1; first
          | decide
          | (have h3 := calculate_liquidation_amount_error _ _ _ _ _ (by assumption);
             subst h3; decide)
          | (have h3 := calculate_health_factor_error _ _ _ _ (by assumption);
             subst h3; decide)
          | (have h3 := update_health_factor_error _ _ (by assumption);
             subst h3; decide)
          | simp_all [get_asset_price])
  · intro hpaused
    refine ⟨?_, ?_, ?_, ?_⟩
    · intro amount userKey mintKey hamt
      simp [deposit, hamt, hpaused]
    · intro amount destChainId receiver userKey mintKey hamt
      simp [borrow_cross_chain, hamt, hpaused]
    · intro repayAmount userKey mintKey hamt
      simp [repay, hamt, hpaused]
    · intro amount mintDecimals userKey mintKey hamt
      simp [withdraw, hamt, hpaused]

/-- A paused pool over the `c2State` accounts. -/
def c10State : ProgState :=
  { c2State with pool := { poolW with is_paused := true } }

/-- C10 witness: with the pool paused, `deposit` fails with
`NotAuthorized` but `liquidate` proceeds past any pause check and fails
only with `LiquidationNotAllowed` (the position is healthy), which the
theorem certifies is not `NotAuthorized`. -/
theorem c10_witness :
    c10State.pool.is_paused = true ∧
    deposit 3 5 7 envW c10State = .err (.e .NotAuthorized) c10State ∧
    liquidate 5 11 12 envW c10State =
      .err (.e .LiquidationNotAllowed) c10State ∧
    TxErr.e .LiquidationNotAllowed ≠ TxErr.e .NotAuthorized :=
  ⟨by decide,
   ((c10_pause_gate envW c10State).2 (by decide)).1 3 5 7 (by decide),
   by decide,
   (c10_pause_gate envW c10State).1 5 11 12 (.e .LiquidationNotAllowed)
     c10State (by decide)⟩
